import Mathlib

/-!
Shallow embedding of `pitemp.py`: a daemon that reads a DHT22
temperature/humidity sensor on a fixed interval and publishes each reading
to an Elasticsearch index.  External collaborators (the environment, the
`Adafruit_DHT.read_retry` driver, the Elasticsearch client) are modelled as
explicit parameters; machine floats become rationals and timestamps become
abstract `Nat` time points.
-/

namespace Pitemp

/-- The process environment: `none` models an unset variable.
`os.environ.get(name, "")` maps both unset and empty to `""`. -/
def envGet (env : String → Option String) (name : String) : String :=
  (env name).getD ""

/-- Digit run of Python `int(s, 10)` after sign: a digit, then digits with
single underscores allowed only between digits.  Accumulates the value. -/
def goDigits : List Char → Nat → Option Nat
  | [], acc => some acc
  | c :: rest, acc =>
    if c.isDigit then goDigits rest (acc * 10 + (c.toNat - 48))
    else if c = '_' then
      match rest with
      | [] => none
      | d :: rest2 =>
        if d.isDigit then goDigits rest2 (acc * 10 + (d.toNat - 48)) else none
    else none

/-- Unsigned digit part: must start with a digit. -/
def parseUDigits : List Char → Option Nat
  | [] => none
  | c :: rest => if c.isDigit then goDigits rest (c.toNat - 48) else none

/-- Whitespace stripping of Python `str.strip()` over the character list. -/
def pyStripChars (l : List Char) : List Char :=
  ((l.dropWhile Char.isWhitespace).reverse.dropWhile Char.isWhitespace).reverse

/-- Python `int(s)`: strip surrounding whitespace, optional sign, base-10
digits with underscore separators; raises `ValueError` (here `none`)
otherwise. -/
def pyIntParse (s : String) : Option Int :=
  match pyStripChars s.data with
  | '+' :: rest => (parseUDigits rest).map (fun n => (n : Int))
  | '-' :: rest => (parseUDigits rest).map (fun n => -(n : Int))
  | t => (parseUDigits t).map (fun n => (n : Int))

/-- `AppConfig` dataclass of `pitemp.py`. -/
structure AppConfig where
  es_host : String
  es_port : Int
  es_index : String
  doc_tag : String
  pub_intvl : Int
  gpio_pin : Int
  sensor : Int
deriving DecidableEq, Repr

/-- `Adafruit_DHT.DHT22`, the constant the module binds to `SENSOR`. -/
def SENSOR : Int := 22

/-- `get_config()`: read the six environment variables in source order,
failing with `(1, none)` on the first empty or unparsable value.  The
source's emptiness check for `PUB_INTVL` tests `doc_tag` instead of the
interval string; the embedding reproduces that line as written. -/
def get_config (env : String → Option String) : Nat × Option AppConfig :=
  let es_host := envGet env "ES_HOST"
  if es_host = "" then (1, none)
  else
  let es_port_str := envGet env "ES_PORT"
  if es_port_str = "" then (1, none)
  else
  match pyIntParse es_port_str with
  | none => (1, none)
  | some es_port =>
    let es_index := envGet env "ES_INDEX"
    if es_index = "" then (1, none)
    else
    let doc_tag := envGet env "DOC_TAG"
    if doc_tag = "" then (1, none)
    else
    let interval_str := envGet env "PUB_INTVL"
    if doc_tag = "" then (1, none)
    else
    match pyIntParse interval_str with
    | none => (1, none)
    | some interval =>
      let gpio_pin_str := envGet env "GPIO_PIN"
      if gpio_pin_str = "" then (1, none)
      else
      match pyIntParse gpio_pin_str with
      | none => (1, none)
      | some gpio_pin =>
        (0, some { es_host := es_host, es_port := es_port,
                   es_index := es_index, doc_tag := doc_tag,
                   pub_intvl := interval, gpio_pin := gpio_pin,
                   sensor := SENSOR })

/-- Outcome of the `__main__` block before the loop body runs. -/
inductive MainOutcome where
  | exitWith (code : Int)
  | enterLoop (cfg : Option AppConfig)
deriving DecidableEq, Repr

/-- `__main__`: call `get_config`; on nonzero rc exit with code 1,
otherwise hand the (optional) config to `run`. -/
def main_start (env : String → Option String) : MainOutcome :=
  let r := get_config env
  if r.1 ≠ 0 then MainOutcome.exitWith 1 else MainOutcome.enterLoop r.2

/-- The `SensorReading` pydantic model: humidity, temperature, timestamp,
location, with the source's defaults. -/
structure SensorReading where
  hum_rh : Rat := 0
  temp_c : Rat := 0
  timestamp : Option Nat := none
  location : String := ""
deriving DecidableEq, Repr

/-- A value of one field of the serialized document body. -/
inductive FieldVal where
  | num (q : Rat)
  | time (t : Option Nat)
  | str (s : String)
deriving DecidableEq, Repr

/-- `sensor_data.dict()`: the pydantic serialization of a `SensorReading`,
one entry per field in declaration order. -/
def SensorReading.dict (r : SensorReading) : List (String × FieldVal) :=
  [("hum_rh", FieldVal.num r.hum_rh), ("temp_c", FieldVal.num r.temp_c),
   ("timestamp", FieldVal.time r.timestamp), ("location", FieldVal.str r.location)]

/-- `read_sensor(sensor, gpio_pin)`: one call to `Adafruit_DHT.read_retry`
(passed in as `read_retry`, returning the optional humidity/temperature
pair) observed at time `now`.  Returns `(rc, hum_rh, temp_c, timestamp)`
with rc 0 on success and `(1, 0, 0, now)` when either value is `None`. -/
def read_sensor (read_retry : Int → Int → Option Rat × Option Rat)
    (sensor gpio_pin : Int) (now : Nat) : Nat × Rat × Rat × Nat :=
  match read_retry sensor gpio_pin with
  | (some h, some t) => (0, h, t, now)
  | (none, _) => (1, 0, 0, now)
  | (_, none) => (1, 0, 0, now)

/-- The Elasticsearch client's `es.index` call, modelled as a function from
the index name and the document body to the response dictionary. -/
def StoreFn : Type := String → List (String × FieldVal) → List (String × String)

/-- Python `d.get(key, dflt)` on the response dictionary. -/
def dictGet (d : List (String × String)) (key dflt : String) : String :=
  match d.find? (fun p => p.1 = key) with
  | some p => p.2
  | none => dflt

/-- `publish_data(es, doc_index, sensor_data)`: index the serialized
reading; any response whose `result` field is not `"created"` yields rc 1,
otherwise rc 0. -/
def publish_data (es : StoreFn) (doc_index : String)
    (sensor_data : SensorReading) : Nat :=
  let result := es doc_index sensor_data.dict
  if dictGet result "result" "" ≠ "created" then 1 else 0

/-- Observable actions of one iteration of the `while True` loop in `run`,
in the order the source performs them. -/
inductive Event where
  | sleep (secs : Int)
  | sensorRead
  | publish (doc : List (String × FieldVal))
deriving DecidableEq, Repr

/-- How an iteration of the loop body ends: back to the top, or out of the
loop with a return value (the source has no path to the latter). -/
inductive IterOutcome where
  | continueLoop (events : List Event)
  | exitLoop (ret : Nat)
deriving Repr

/-- The body of the `while True` loop in `run`, lines 162-169: sleep for
`pub_intvl`, call `read_sensor`; on failure log and `continue`; on success
build a `SensorReading` from the read values and `doc_tag` and call
`publish_data`, discarding its return code. -/
def run_iter (config : AppConfig)
    (read_retry : Int → Int → Option Rat × Option Rat)
    (es : StoreFn) (now : Nat) : IterOutcome :=
  let sleepEv := Event.sleep config.pub_intvl
  match read_sensor read_retry config.sensor config.gpio_pin now with
  | (rc, hum_rh, temp_c, ts) =>
    if rc ≠ 0 then
      IterOutcome.continueLoop [sleepEv, Event.sensorRead]
    else
      let sensor_data : SensorReading :=
        { hum_rh := hum_rh, temp_c := temp_c, timestamp := some ts,
          location := config.doc_tag }
      let _rc2 := publish_data es config.es_index sensor_data
      IterOutcome.continueLoop
        [sleepEv, Event.sensorRead, Event.publish sensor_data.dict]

/-- Whether the process is still inside the `while True` loop, or `run`
has returned with a value. -/
inductive LoopState where
  | running
  | done (ret : Nat)
deriving DecidableEq, Repr

/-- `n` iterations of the loop of `run`, with the driver result and the
read time of each iteration supplied by `inputs`: the loop state reached
and the events of all completed iterations. -/
def run_n (config : AppConfig)
    (inputs : Nat → (Int → Int → Option Rat × Option Rat) × Nat)
    (es : StoreFn) : Nat → LoopState × List Event
  | 0 => (LoopState.running, [])
  | n + 1 =>
    match run_n config inputs es n with
    | (LoopState.running, evs) =>
      match run_iter config (inputs n).1 es (inputs n).2 with
      | IterOutcome.continueLoop evs2 => (LoopState.running, evs ++ evs2)
      | IterOutcome.exitLoop r => (LoopState.done r, evs)
    | st => st

/-! Concrete instances used to exercise the theorems below. -/

/-- A fully populated environment. -/
def envW : String → Option String := fun n =>
  if n = "ES_HOST" then some "localhost"
  else if n = "ES_PORT" then some "9200"
  else if n = "ES_INDEX" then some "pitemp"
  else if n = "DOC_TAG" then some "garage"
  else if n = "PUB_INTVL" then some "60"
  else if n = "GPIO_PIN" then some "4"
  else none

/-- `envW` with `DOC_TAG` unset. -/
def envNoTag : String → Option String := fun n =>
  if n = "DOC_TAG" then none else envW n

/-- `envW` with a non-numeric `ES_PORT`. -/
def envBadPort : String → Option String := fun n =>
  if n = "ES_PORT" then some "ninety" else envW n

/-- The configuration `get_config` assembles from `envW`. -/
def cfgW : AppConfig :=
  { es_host := "localhost", es_port := 9200, es_index := "pitemp",
    doc_tag := "garage", pub_intvl := 60, gpio_pin := 4, sensor := SENSOR }

/-- A driver that always reads humidity 55.2 and temperature 21.3. -/
def rrOkW : Int → Int → Option Rat × Option Rat :=
  fun _ _ => (some (55.2 : Rat), some (21.3 : Rat))

/-- A driver whose humidity reading is `None`. -/
def rrBadW : Int → Int → Option Rat × Option Rat :=
  fun _ _ => (none, some (21.3 : Rat))

/-- A store that always answers `result: created`. -/
def esCreated : StoreFn := fun _ _ => [("result", "created")]

/-- A store that always answers `result: noop`. -/
def esNoop : StoreFn := fun _ _ => [("result", "noop")]

/-- A sample reading used to exercise `publish_data`. -/
def sdW : SensorReading :=
  { hum_rh := (55.2 : Rat), temp_c := (21.3 : Rat), timestamp := some 42,
    location := "garage" }

/-! Helper lemmas. -/

theorem pyIntParse_empty : pyIntParse "" = none := rfl

theorem main_exit_of_fail (env : String → Option String)
    (h : get_config env = (1, none)) :
    main_start env = MainOutcome.exitWith 1 := by
  simp [main_start, h]

/-- `get_config` either fails with `(1, none)` or succeeds with a fully
assembled configuration whose fields are the (parsed) environment values;
on success the three string variables are nonempty, the three numeric
variables parse, and `sensor` is the module constant. -/
theorem get_config_spec (env : String → Option String) :
    get_config env = (1, none) ∨
    ∃ cfg, get_config env = (0, some cfg) ∧
      envGet env "ES_HOST" ≠ "" ∧
      envGet env "ES_INDEX" ≠ "" ∧
      envGet env "DOC_TAG" ≠ "" ∧
      cfg.es_host = envGet env "ES_HOST" ∧
      pyIntParse (envGet env "ES_PORT") = some cfg.es_port ∧
      cfg.es_index = envGet env "ES_INDEX" ∧
      cfg.doc_tag = envGet env "DOC_TAG" ∧
      pyIntParse (envGet env "PUB_INTVL") = some cfg.pub_intvl ∧
      pyIntParse (envGet env "GPIO_PIN") = some cfg.gpio_pin ∧
      cfg.sensor = SENSOR := by
  by_cases hH : envGet env "ES_HOST" = ""
  · exact Or.inl (by simp [get_config, hH])
  by_cases hPs : envGet env "ES_PORT" = ""
  · exact Or.inl (by simp [get_config, hH, hPs])
  cases hP : pyIntParse (envGet env "ES_PORT") with
  | none => exact Or.inl (by simp [get_config, hH, hPs, hP])
  | some es_port =>
  by_cases hI : envGet env "ES_INDEX" = ""
  · exact Or.inl (by simp [get_config, hH, hPs, hP, hI])
  by_cases hD : envGet env "DOC_TAG" = ""
  · exact Or.inl (by simp [get_config, hH, hPs, hP, hI, hD])
  cases hPI : pyIntParse (envGet env "PUB_INTVL") with
  | none => exact Or.inl (by simp [get_config, hH, hPs, hP, hI, hD, hPI])
  | some interval =>
  by_cases hGs : envGet env "GPIO_PIN" = ""
  · exact Or.inl (by simp [get_config, hH, hPs, hP, hI, hD, hPI, hGs])
  cases hG : pyIntParse (envGet env "GPIO_PIN") with
  | none => exact Or.inl (by simp [get_config, hH, hPs, hP, hI, hD, hPI, hGs, hG])
  | some gpio_pin =>
  refine Or.inr ⟨⟨envGet env "ES_HOST", es_port, envGet env "ES_INDEX",
    envGet env "DOC_TAG", interval, gpio_pin, SENSOR⟩,
    ?_, hH, hI, hD, rfl, rfl, rfl, rfl, rfl, rfl, rfl⟩
  simp [get_config, hH, hPs, hP, hI, hD, hPI, hGs, hG]

/-- Every iteration of the loop body goes back to the top of the loop. -/
theorem run_iter_continues (config : AppConfig)
    (rr : Int → Int → Option Rat × Option Rat) (es : StoreFn) (now : Nat) :
    ∃ evs, run_iter config rr es now = IterOutcome.continueLoop evs := by
  rcases hpair : rr config.sensor config.gpio_pin with ⟨ho, tc⟩
  cases ho <;> cases tc <;>
    simp [run_iter, read_sensor, hpair]

/-- The iteration's control flow and events do not depend on the store's
response. -/
theorem run_iter_es_eq (config : AppConfig)
    (rr : Int → Int → Option Rat × Option Rat) (es es2 : StoreFn) (now : Nat) :
    run_iter config rr es now = run_iter config rr es2 now := by
  rcases hpair : rr config.sensor config.gpio_pin with ⟨ho, tc⟩
  cases ho <;> cases tc <;> simp [run_iter, read_sensor, hpair]

/-- After any number of iterations the process is still inside the loop. -/
theorem run_n_running (config : AppConfig)
    (inputs : Nat → (Int → Int → Option Rat × Option Rat) × Nat)
    (es : StoreFn) : ∀ n, (run_n config inputs es n).1 = LoopState.running := by
  intro n
  induction n with
  | zero => rfl
  | succ n ih =>
    obtain ⟨evs2, h2⟩ := run_iter_continues config (inputs n).1 es (inputs n).2
    cases hr : run_n config inputs es n with
    | mk st evs =>
      rw [hr] at ih
      cases st with
      | running => simp [run_n, hr, h2]
      | done r => simp at ih

/-! Claim theorems. -/

/-- C1: for each required environment variable (ES_HOST, ES_PORT, ES_INDEX,
DOC_TAG, PUB_INTVL, GPIO_PIN), leaving it unset or setting it to the empty
string makes `get_config` return `(1, none)` and the process exit with
code 1, whatever the other variables hold. -/
theorem c1_required_env_empty_fails (env : String → Option String)
    (name : String)
    (hmem : name = "ES_HOST" ∨ name = "ES_PORT" ∨ name = "ES_INDEX" ∨
      name = "DOC_TAG" ∨ name = "PUB_INTVL" ∨ name = "GPIO_PIN")
    (hval : env name = none ∨ env name = some "") :
    get_config env = (1, none) ∧ main_start env = MainOutcome.exitWith 1 := by
  have hempty : envGet env name = "" := by
    rcases hval with h | h <;> simp [envGet, h]
  rcases get_config_spec env with hfail |
    ⟨cfg, hsucc, hH, hI, hD, hh, hp, hi, hd, hpi, hg, hs⟩
  · exact ⟨hfail, main_exit_of_fail env hfail⟩
  · exfalso
    rcases hmem with rfl | rfl | rfl | rfl | rfl | rfl
    · exact hH hempty
    · rw [hempty, pyIntParse_empty] at hp; exact Option.noConfusion hp
    · exact hI hempty
    · exact hD hempty
    · rw [hempty, pyIntParse_empty] at hpi; exact Option.noConfusion hpi
    · rw [hempty, pyIntParse_empty] at hg; exact Option.noConfusion hg

/-- Witness for C1: with DOC_TAG unset, configuration loading fails and the
process exits with code 1. -/
theorem c1_witness :
    get_config envNoTag = (1, none) ∧
      main_start envNoTag = MainOutcome.exitWith 1 :=
  c1_required_env_empty_fails envNoTag "DOC_TAG"
    (Or.inr (Or.inr (Or.inr (Or.inl rfl)))) (Or.inl rfl)

/-- C2: for each numeric environment variable (ES_PORT, PUB_INTVL,
GPIO_PIN), a non-empty value that does not parse as an integer makes
`get_config` return `(1, none)` and the process exit with code 1. -/
theorem c2_numeric_env_invalid_fails (env : String → Option String)
    (name : String)
    (hmem : name = "ES_PORT" ∨ name = "PUB_INTVL" ∨ name = "GPIO_PIN")
    (hne : envGet env name ≠ "")
    (hbad : pyIntParse (envGet env name) = none) :
    get_config env = (1, none) ∧ main_start env = MainOutcome.exitWith 1 := by
  rcases get_config_spec env with hfail |
    ⟨cfg, hsucc, hH, hI, hD, hh, hp, hi, hd, hpi, hg, hs⟩
  · exact ⟨hfail, main_exit_of_fail env hfail⟩
  · exfalso
    rcases hmem with rfl | rfl | rfl
    · rw [hbad] at hp; exact Option.noConfusion hp
    · rw [hbad] at hpi; exact Option.noConfusion hpi
    · rw [hbad] at hg; exact Option.noConfusion hg

/-- Witness for C2: with ES_PORT set to "ninety", configuration loading
fails and the process exits with code 1. -/
theorem c2_witness :
    get_config envBadPort = (1, none) ∧
      main_start envBadPort = MainOutcome.exitWith 1 :=
  c2_numeric_env_invalid_fails envBadPort "ES_PORT" (Or.inl rfl)
    (by decide) (by decide)

/-- C3: when the driver reads humidity `h` and temperature `t` at time
`now`, the iteration publishes exactly the document
`{hum_rh: h, temp_c: t, timestamp: now, location: doc_tag}`. -/
theorem c3_document_shape (config : AppConfig)
    (rr : Int → Int → Option Rat × Option Rat) (es : StoreFn) (now : Nat)
    (h t : Rat) (hrr : rr config.sensor config.gpio_pin = (some h, some t)) :
    run_iter config rr es now = IterOutcome.continueLoop
      [Event.sleep config.pub_intvl, Event.sensorRead,
       Event.publish [("hum_rh", FieldVal.num h), ("temp_c", FieldVal.num t),
         ("timestamp", FieldVal.time (some now)),
         ("location", FieldVal.str config.doc_tag)]] := by
  simp [run_iter, read_sensor, hrr, SensorReading.dict]

/-- Witness for C3: humidity 55.2, temperature 21.3, tag "garage" yield
exactly the expected document. -/
theorem c3_witness :
    run_iter cfgW rrOkW esCreated 42 = IterOutcome.continueLoop
      [Event.sleep 60, Event.sensorRead,
       Event.publish [("hum_rh", FieldVal.num (55.2 : Rat)),
         ("temp_c", FieldVal.num (21.3 : Rat)),
         ("timestamp", FieldVal.time (some 42)),
         ("location", FieldVal.str "garage")]] :=
  c3_document_shape cfgW rrOkW esCreated 42 (55.2 : Rat) (21.3 : Rat) rfl

/-- C4: when the driver reports failure (either value `None`), the
iteration publishes nothing and goes back to the next wait cycle. -/
theorem c4_read_failure_no_publish (config : AppConfig)
    (rr : Int → Int → Option Rat × Option Rat) (es : StoreFn) (now : Nat)
    (hfail : (rr config.sensor config.gpio_pin).1 = none ∨
      (rr config.sensor config.gpio_pin).2 = none) :
    run_iter config rr es now =
      IterOutcome.continueLoop [Event.sleep config.pub_intvl, Event.sensorRead] := by
  rcases hpair : rr config.sensor config.gpio_pin with ⟨ho, tc⟩
  rw [hpair] at hfail
  cases ho <;> cases tc <;> simp_all [run_iter, read_sensor]

/-- Witness for C4: a driver whose humidity is `None` publishes nothing. -/
theorem c4_witness :
    run_iter cfgW rrBadW esCreated 42 =
      IterOutcome.continueLoop [Event.sleep 60, Event.sensorRead] :=
  c4_read_failure_no_publish cfgW rrBadW esCreated 42 (Or.inl rfl)

/-- C5: a store response whose `result` field is not "created" makes
`publish_data` return 1; the loop ignores the store's answer entirely (the
iteration is the same under any store) and goes back to the loop top. -/
theorem c5_noncreated_failure_ignored (es : StoreFn) (doc_index : String)
    (sd : SensorReading) (config : AppConfig)
    (rr : Int → Int → Option Rat × Option Rat) (es2 : StoreFn) (now : Nat)
    (hres : dictGet (es doc_index sd.dict) "result" "" ≠ "created") :
    publish_data es doc_index sd = 1 ∧
    run_iter config rr es now = run_iter config rr es2 now ∧
    ∃ evs, run_iter config rr es now = IterOutcome.continueLoop evs :=
  ⟨by simp [publish_data, hres], run_iter_es_eq config rr es es2 now,
    run_iter_continues config rr es now⟩

/-- Witness for C5: the "noop"-answering store makes `publish_data` return
1 and leaves the iteration unchanged. -/
theorem c5_witness :
    publish_data esNoop "pitemp" sdW = 1 ∧
    run_iter cfgW rrOkW esNoop 42 = run_iter cfgW rrOkW esCreated 42 ∧
    ∃ evs, run_iter cfgW rrOkW esNoop 42 = IterOutcome.continueLoop evs :=
  c5_noncreated_failure_ignored esNoop "pitemp" sdW cfgW rrOkW esCreated 42
    (by decide)

/-- C6: `get_config` is fail-fast with no partial configuration: it either
returns `(1, none)` or `(0, some cfg)` with every field of `cfg` equal to
the (parsed) value of the corresponding environment variable. -/
theorem c6_fail_fast_no_partial_config (env : String → Option String) :
    get_config env = (1, none) ∨
    ∃ cfg, get_config env = (0, some cfg) ∧
      cfg.es_host = envGet env "ES_HOST" ∧
      pyIntParse (envGet env "ES_PORT") = some cfg.es_port ∧
      cfg.es_index = envGet env "ES_INDEX" ∧
      cfg.doc_tag = envGet env "DOC_TAG" ∧
      pyIntParse (envGet env "PUB_INTVL") = some cfg.pub_intvl ∧
      pyIntParse (envGet env "GPIO_PIN") = some cfg.gpio_pin := by
  rcases get_config_spec env with hfail |
    ⟨cfg, hsucc, _, _, _, hh, hp, hi, hd, hpi, hg, _⟩
  · exact Or.inl hfail
  · exact Or.inr ⟨cfg, hsucc, hh, hp, hi, hd, hpi, hg⟩

/-- C7: every iteration is WAIT then READ then, at most once and only
after the read, PUBLISH: the event list starts with a sleep of exactly the
configured interval, then the sensor read, then either nothing or one
publish. -/
theorem c7_iteration_order (config : AppConfig)
    (rr : Int → Int → Option Rat × Option Rat) (es : StoreFn) (now : Nat) :
    ∃ rest, run_iter config rr es now = IterOutcome.continueLoop
        (Event.sleep config.pub_intvl :: Event.sensorRead :: rest) ∧
      (rest = [] ∨ ∃ doc, rest = [Event.publish doc]) := by
  rcases hpair : rr config.sensor config.gpio_pin with ⟨ho, tc⟩
  cases ho with
  | none =>
    exact ⟨[], by simp [run_iter, read_sensor, hpair], Or.inl rfl⟩
  | some h =>
    cases tc with
    | none =>
      exact ⟨[], by simp [run_iter, read_sensor, hpair], Or.inl rfl⟩
    | some t =>
      refine ⟨[Event.publish [("hum_rh", FieldVal.num h),
        ("temp_c", FieldVal.num t), ("timestamp", FieldVal.time (some now)),
        ("location", FieldVal.str config.doc_tag)]],
        by simp [run_iter, read_sensor, hpair, SensorReading.dict],
        Or.inr ⟨_, rfl⟩⟩

/-- C8: the loop never terminates on its own: after any number of
iterations the state is still `running`, and every single iteration goes
back to the loop top, so the `return 0` after the loop is unreachable. -/
theorem c8_loop_never_terminates (config : AppConfig)
    (inputs : Nat → (Int → Int → Option Rat × Option Rat) × Nat)
    (es : StoreFn) :
    (∀ n, (run_n config inputs es n).1 = LoopState.running) ∧
    (∀ rr now, ∃ evs, run_iter config rr es now = IterOutcome.continueLoop evs) :=
  ⟨run_n_running config inputs es,
   fun rr now => run_iter_continues config rr es now⟩

/-- C9: `read_sensor` returns code 0 with the driver's humidity and
temperature and the read time exactly when the driver returns two
non-`None` values; otherwise it returns the failure tuple `(1, 0, 0, now)`. -/
theorem c9_read_sensor_result (rr : Int → Int → Option Rat × Option Rat)
    (sensor gpio_pin : Int) (now : Nat) :
    (∀ h t, rr sensor gpio_pin = (some h, some t) →
      read_sensor rr sensor gpio_pin now = (0, h, t, now)) ∧
    (((rr sensor gpio_pin).1 = none ∨ (rr sensor gpio_pin).2 = none) →
      read_sensor rr sensor gpio_pin now = (1, 0, 0, now)) ∧
    ((read_sensor rr sensor gpio_pin now).1 = 0 ↔
      ∃ h t, rr sensor gpio_pin = (some h, some t)) := by
  rcases hpair : rr sensor gpio_pin with ⟨ho, tc⟩
  cases ho <;> cases tc <;> simp_all [read_sensor]

/-- Witness for C9: a successful and a failed concrete driver read. -/
theorem c9_witness :
    read_sensor rrOkW 22 4 7 = (0, (55.2 : Rat), (21.3 : Rat), 7) ∧
    read_sensor rrBadW 22 4 7 = (1, 0, 0, 7) :=
  ⟨(c9_read_sensor_result rrOkW 22 4 7).1 (55.2 : Rat) (21.3 : Rat) rfl,
   (c9_read_sensor_result rrBadW 22 4 7).2.1 (Or.inl rfl)⟩

/-- C10: whenever `get_config` succeeds, the `sensor` field of the
configuration is the fixed module constant `SENSOR` (DHT22); no
environment variable influences it. -/
theorem c10_sensor_constant (env : String → Option String) (cfg : AppConfig)
    (hsucc : (get_config env).2 = some cfg) : cfg.sensor = SENSOR := by
  rcases get_config_spec env with hfail |
    ⟨cfg2, h2, _, _, _, _, _, _, _, _, _, hs⟩
  · rw [hfail] at hsucc; exact Option.noConfusion hsucc
  · rw [h2] at hsucc
    exact Option.some.inj hsucc ▸ hs

/-- Witness for C10: the configuration built from a full environment has
the DHT22 sensor constant. -/
theorem c10_witness : (get_config envW).2 = some cfgW ∧ cfgW.sensor = SENSOR :=
  ⟨by decide, c10_sensor_constant envW cfgW (by decide)⟩

end Pitemp
